import Mathlib

/-!
Verification development for the terraform command engine (src/main.py).

The development shallowly embeds the pure content of the source:

* the provider-credential injection done by `create_terraform_workspace`
  (Python string/regex manipulation, modelled on `List Char` / `String`);
* the result mapping of `execute_terraform_command`;
* the stage pipeline of the `/validate` handler, parametrised by a stub of
  the external tool;
* the queue/slot bookkeeping of the `/execute` handler, as a step function
  over an explicit state.
-/

namespace TfEngine

/-- Python `str` whitespace characters (as used by `str.strip` / `\s`). -/
def isPySpace (c : Char) : Bool :=
  c == ' ' || c == '\t' || c == '\n' || c == '\r' || c == '\x0b' || c == '\x0c'

/-- Python `s.strip()` on a character list. -/
def pyStrip (cs : List Char) : List Char :=
  ((cs.dropWhile isPySpace).reverse.dropWhile isPySpace).reverse

/-- Python `s.split(sep)` for a one-character separator: keeps empty pieces. -/
def splitOnChar (sep : Char) : List Char → List (List Char)
  | [] => [[]]
  | c :: cs =>
    match splitOnChar sep cs with
    | [] => [[c]]
    | h :: t => if c == sep then [] :: h :: t else (c :: h) :: t

/-- Python `s.split(sep, 1)` when `sep` occurs: the pieces around the first
occurrence; `none` when `sep` does not occur (`sep in s` is false). -/
def splitFirst (sep : Char) : List Char → Option (List Char × List Char)
  | [] => none
  | c :: cs =>
    if c == sep then some ([], cs)
    else (splitFirst sep cs).map fun p => (c :: p.1, p.2)

/-- `pat` is a prefix of the list (Python `s.startswith(pat)`). -/
def isPrefixL : List Char → List Char → Bool
  | [], _ => true
  | _ :: _, [] => false
  | p :: ps, c :: cs => p == c && isPrefixL ps cs

/-- Python `pat in s` (substring containment). -/
def containsSubstrL (pat : List Char) : List Char → Bool
  | [] => isPrefixL pat []
  | c :: cs => isPrefixL pat (c :: cs) || containsSubstrL pat cs

/-- Worker for `replaceAllL`: the fuel dominates the length of the text, and
each step consumes at least one character, so fuel `text.length` is exact. -/
def replaceAllGo (pat new : List Char) : Nat → List Char → List Char
  | 0, l => l
  | _ + 1, [] => []
  | fuel + 1, c :: cs =>
    if pat ≠ [] ∧ isPrefixL pat (c :: cs) = true then
      new ++ replaceAllGo pat new fuel (List.drop (pat.length - 1) cs)
    else
      c :: replaceAllGo pat new fuel cs

/-- Python `s.replace(pat, new)`: every non-overlapping occurrence, scanning
left to right, is replaced (for the non-empty patterns the source uses). -/
def replaceAllL (pat new l : List Char) : List Char :=
  replaceAllGo pat new l.length l

/-- Drop the literal prefix `pat`; `none` when `pat` is not a prefix. -/
def dropPrefixL : List Char → List Char → Option (List Char)
  | [], cs => some cs
  | _ :: _, [] => none
  | p :: ps, c :: cs => if p == c then dropPrefixL ps cs else none

/-- One-or-more whitespace (regex `\s+`): requires a leading whitespace
character, then consumes the maximal whitespace run. -/
def takeSpaces1 : List Char → Option (List Char)
  | [] => none
  | c :: cs => if isPySpace c then some (cs.dropWhile isPySpace) else none

/-- Attempt to match the regex `provider\s+"aws"\s+{([^}]*)}` at the head of
the list.  `[^}]*` (greedy or not) always stops at the first `}`, so the
captured group runs from the `{` to the first following `}`.  Returns the
captured group and the remainder after the consumed `}`. -/
def matchAws (cs : List Char) : Option (List Char × List Char) :=
  match dropPrefixL ("provider".data) cs with
  | none => none
  | some r1 =>
    match takeSpaces1 r1 with
    | none => none
    | some r2 =>
      match dropPrefixL ("\"aws\"".data) r2 with
      | none => none
      | some r3 =>
        match takeSpaces1 r3 with
        | none => none
        | some r4 =>
          match dropPrefixL (['{']) r4 with
          | none => none
          | some r5 => splitFirst '}' r5

/-- Python `re.search` for the aws provider pattern: leftmost match,
returning the captured group (the block body up to the first `}`) and the
remainder of the text after the match. -/
def searchAws : List Char → Option (List Char × List Char)
  | [] => none
  | c :: cs =>
    match matchAws (c :: cs) with
    | some p => some p
    | none => searchAws cs

/-- Worker for `subAllAws`; fuel bounds the number of scan steps, each of
which consumes at least one character, so fuel `text.length` is exact. -/
def subAllAwsGo (repl : List Char) : Nat → List Char → List Char
  | 0, l => l
  | _ + 1, [] => []
  | fuel + 1, c :: cs =>
    match matchAws (c :: cs) with
    | some p => repl ++ subAllAwsGo repl fuel p.2
    | none => c :: subAllAwsGo repl fuel cs

/-- Python `re.sub` for the aws provider pattern with a fixed replacement:
every non-overlapping match, scanning left to right, is replaced. -/
def subAllAws (repl l : List Char) : List Char :=
  subAllAwsGo repl l.length l

/-- `s.strip()` on `String`. -/
def pyStripS (s : String) : String := ⟨pyStrip s.data⟩

/-- `sep in s` on `String`. -/
def containsSubstrS (pat s : String) : Bool := containsSubstrL pat.data s.data

/-- `s.replace(pat, new)` on `String`. -/
def replaceAllS (pat new s : String) : String := ⟨replaceAllL pat.data new.data s.data⟩

/-- Lines of `s` (Python `s.split('\n')`). -/
def splitLinesS (s : String) : List String := (splitOnChar '\n' s.data).map String.mk

/-! ## Variable mapping and credential extraction (src/main.py lines 48-64)

The Python `variables` dict is modelled as an association list with unique
keys; `key in variables` is a lookup and `variables.pop(key)` removes the
entry while the remaining entries keep their order. -/

/-- `variables[key]` when present. -/
def lookupVar (k : String) (vs : List (String × String)) : Option String :=
  (vs.find? fun p => p.1 == k).map Prod.snd

/-- `variables.pop(key)`: the mapping without `key`. -/
def removeVar (k : String) (vs : List (String × String)) : List (String × String) :=
  vs.filter fun p => !(p.1 == k)

/-- The aws credential bundle popped from the mapping (lines 50-53). -/
structure AwsCreds where
  access_key : Option String
  secret_key : Option String
  region : Option String
deriving DecidableEq

/-- `if aws_credentials:` — the dict is non-empty. -/
def AwsCreds.nonempty (a : AwsCreds) : Bool :=
  a.access_key.isSome || a.secret_key.isSome || a.region.isSome

/-- The azure credential bundle popped from the mapping (lines 61-64). -/
structure AzureCreds where
  client_id : Option String
  client_secret : Option String
  subscription_id : Option String
  tenant_id : Option String
deriving DecidableEq

/-- `if azure_credentials:` — the dict is non-empty. -/
def AzureCreds.nonempty (z : AzureCreds) : Bool :=
  z.client_id.isSome || z.client_secret.isSome || z.subscription_id.isSome ||
    z.tenant_id.isSome

/-- Pop the aws keys (lines 50-53). -/
def extractAws (vs : List (String × String)) : AwsCreds × List (String × String) :=
  (⟨lookupVar ("aws_access_key") vs, lookupVar ("aws_secret_key") vs,
    lookupVar ("aws_region") vs⟩,
   removeVar ("aws_region") (removeVar ("aws_secret_key") (removeVar ("aws_access_key") vs)))

/-- Pop `gcp_credentials_file` (lines 56-58); the bundle is its value. -/
def extractGcp (vs : List (String × String)) : Option String × List (String × String) :=
  (lookupVar ("gcp_credentials_file") vs, removeVar ("gcp_credentials_file") vs)

/-- Pop the azure keys (lines 61-64). -/
def extractAzure (vs : List (String × String)) : AzureCreds × List (String × String) :=
  (⟨lookupVar ("azure_client_id") vs, lookupVar ("azure_client_secret") vs,
    lookupVar ("azure_subscription_id") vs, lookupVar ("azure_tenant_id") vs⟩,
   removeVar ("azure_tenant_id") (removeVar ("azure_subscription_id")
     (removeVar ("azure_client_secret") (removeVar ("azure_client_id") vs))))

/-! ## Provider block construction and injection (lines 66-143) -/

/-- The field names already declared inside an existing provider block body:
lines 75-80.  `existing_config.strip().split('\n')`, each line stripped; a
line containing `=` contributes the stripped text before the first `=`. -/
def parseFieldKeysS (inner : String) : List String :=
  (splitOnChar '\n' (pyStrip inner.data)).foldr
    (fun line acc =>
      match splitFirst '=' (pyStrip line) with
      | some p => String.mk (pyStrip p.1) :: acc
      | none => acc) []

/-- Re-emission of the originally declared lines (lines 92-94): every
non-blank line of the stripped body, stripped and re-indented with two
spaces. -/
def emitStrippedLines (inner : String) : String :=
  (splitOnChar '\n' (pyStrip inner.data)).foldl
    (fun b line =>
      if (pyStrip line).isEmpty then b else b ++ "  " ++ String.mk (pyStrip line) ++ "\n")
    ""

/-- The credential lines injected into an existing aws provider block
(lines 84-89): a bundle field is emitted only when the corresponding
declaration field name is not already present. -/
def awsInjectedFields (ev : List String) (a : AwsCreds) : String :=
  (match a.access_key with
   | some v => if ev.contains ("access_key") then "" else "  access_key = \"" ++ v ++ "\"\n"
   | none => "") ++
  (match a.secret_key with
   | some v => if ev.contains ("secret_key") then "" else "  secret_key = \"" ++ v ++ "\"\n"
   | none => "") ++
  (match a.region with
   | some v => if ev.contains ("region") then "" else "  region     = \"" ++ v ++ "\"\n"
   | none => "")

/-- The merged aws provider block built when a declaration already exists
(lines 82-96), from the regex capture `inner`: header, newly injected
credential lines, then the original lines re-emitted, then `}`. -/
def buildAwsMergedBlock (inner : String) (a : AwsCreds) : String :=
  let ev := parseFieldKeysS inner
  let b := "provider \"aws\" \x7b\n"
  let b := match a.access_key with
    | some v => if ev.contains ("access_key") then b else b ++ "  access_key = \"" ++ v ++ "\"\n"
    | none => b
  let b := match a.secret_key with
    | some v => if ev.contains ("secret_key") then b else b ++ "  secret_key = \"" ++ v ++ "\"\n"
    | none => b
  let b := match a.region with
    | some v => if ev.contains ("region") then b else b ++ "  region     = \"" ++ v ++ "\"\n"
    | none => b
  let b := (splitOnChar '\n' (pyStrip inner.data)).foldl
    (fun b line =>
      if (pyStrip line).isEmpty then b else b ++ "  " ++ String.mk (pyStrip line) ++ "\n")
    b
  b ++ "\x7d\n"

/-- The fresh aws provider block built when no declaration exists
(lines 101-109): only the bundle's fields. -/
def buildAwsNewBlock (a : AwsCreds) : String :=
  let b := "provider \"aws\" \x7b\n"
  let b := match a.access_key with
    | some v => b ++ "  access_key = \"" ++ v ++ "\"\n"
    | none => b
  let b := match a.secret_key with
    | some v => b ++ "  secret_key = \"" ++ v ++ "\"\n"
    | none => b
  let b := match a.region with
    | some v => b ++ "  region     = \"" ++ v ++ "\"\n"
    | none => b
  b ++ "\x7d\n"

/-- The aws injection step (lines 66-110). -/
def injectAws (content : String) (a : AwsCreds) : String :=
  if a.nonempty then
    match searchAws content.data with
    | some p =>
      ⟨subAllAws (pyStrip (buildAwsMergedBlock (String.mk p.1) a).data) content.data⟩
    | none => buildAwsNewBlock a ++ content
  else content

/-- The google provider block (lines 114-117); no trailing newline. -/
def gcpBlock (path : String) : String :=
  "provider \"google\" \x7b\n  credentials = file(\"" ++ path ++ "\")\n\x7d"

/-- The google injection step (lines 112-123).  When the text mentions
`provider "google"` the opening tokens are textually replaced; otherwise the
block is appended after the text. -/
def injectGcp (content : String) (g : Option String) : String :=
  match g with
  | none => content
  | some path =>
    let b := gcpBlock path
    if containsSubstrS ("provider \"google\"") content then
      replaceAllS ("provider \"google\" \x7b") b
        (replaceAllS ("provider \"google\" \x7b\x7d") b content)
    else content ++ "\n" ++ b ++ "\n"

/-- The azurerm provider block (lines 127-137): always contains the empty
`features {}` sub-block, then the supplied fields; no trailing newline. -/
def azureBlock (z : AzureCreds) : String :=
  let b := "provider \"azurerm\" \x7b\n"
  let b := b ++ "  features \x7b\x7d\n"
  let b := match z.client_id with
    | some v => b ++ "  client_id       = \"" ++ v ++ "\"\n"
    | none => b
  let b := match z.client_secret with
    | some v => b ++ "  client_secret   = \"" ++ v ++ "\"\n"
    | none => b
  let b := match z.subscription_id with
    | some v => b ++ "  subscription_id = \"" ++ v ++ "\"\n"
    | none => b
  let b := match z.tenant_id with
    | some v => b ++ "  tenant_id       = \"" ++ v ++ "\"\n"
    | none => b
  b ++ "\x7d"

/-- The azure injection step (lines 125-143). -/
def injectAzure (content : String) (z : AzureCreds) : String :=
  if z.nonempty then
    let b := azureBlock z
    if containsSubstrS ("provider \"azurerm\"") content then
      replaceAllS ("provider \"azurerm\" \x7b") b
        (replaceAllS ("provider \"azurerm\" \x7b\x7d") b content)
    else content ++ "\n" ++ b ++ "\n"
  else content

/-- The pure content of `create_terraform_workspace` (lines 40-153): the
rendered configuration text and the residual (non-credential) variables.
`variables` is `None` or a dict; a `None` or empty dict skips injection. -/
def create_terraform_workspace (content : String)
    (varMap : Option (List (String × String))) : String × List (String × String) :=
  match varMap with
  | none => (content, [])
  | some vs =>
    if vs.isEmpty then (content, [])
    else
      let p1 := extractAws vs
      let p2 := extractGcp p1.2
      let p3 := extractAzure p2.2
      let c1 := injectAws content p1.1
      let c2 := injectGcp c1 p2.1
      let c3 := injectAzure c2 p3.1
      (c3, p3.2)

/-- The workspace contents materialised on disk: `main.tf` always; the
`terraform.tfvars` file only when residual variables remain (lines 145-153),
one `name = "value"` line per entry. -/
structure Workspace where
  mainTf : String
  tfvars : Option String
deriving DecidableEq

/-- `terraform.tfvars` rendering (lines 151-153). -/
def renderTfvars (vs : List (String × String)) : String :=
  vs.foldl (fun b p => b ++ p.1 ++ " = \"" ++ p.2 ++ "\"\n") ""

/-- The files `create_terraform_workspace` writes into the workspace. -/
def workspaceFiles (content : String)
    (varMap : Option (List (String × String))) : Workspace :=
  let r := create_terraform_workspace content varMap
  ⟨r.1, if r.2.isEmpty then none else some (renderTfvars r.2)⟩

/-! ## Command runner (src/main.py lines 157-177)

The external process is opaque; its observable behaviour is either a
completed run (exit code, stdout, stderr) or a failure to launch, whose
exception text Python renders via `str(e)`. -/

/-- What happens when the child process is spawned. -/
inductive ProcOutcome where
  | launched (exitCode : Int) (stdout : String) (stderr : String)
  | launchFailure (message : String)
deriving DecidableEq

/-- The dictionary `execute_terraform_command` returns: `output` is absent in
the launch-failure branch (the dict has no `output` key there), `error` is
`None`/absent on success. -/
structure CmdResult where
  success : Bool
  output : Option String
  error : Option String
deriving DecidableEq

/-- `execute_terraform_command` (lines 157-177): success is exit code zero;
on non-zero exit `error` carries stderr; a spawn exception is caught and
returned as a failure whose `error` is the exception text. -/
def execute_terraform_command : ProcOutcome → CmdResult
  | .launched code out err =>
    ⟨code == 0, some out, if code != 0 then some err else none⟩
  | .launchFailure msg => ⟨false, none, some msg⟩

/-! ## The `/validate` pipeline (src/main.py lines 186-339)

The handler is embedded as a function of a stub describing the external
tool: one `CmdResult` per subcommand (the `destroy` subcommand behaves the
same at each of its call sites within one run) and a flag saying whether the
`terraform validate -json` stdout parses as JSON (line 311 parses it inside
the success return, and a parse failure falls into the
`except json.JSONDecodeError` arm at line 317). -/

/-- Stub of the external tool for one `/validate` run. -/
structure Stub where
  init : CmdResult
  validate : CmdResult
  plan : CmdResult
  apply : CmdResult
  destroy : CmdResult
  validStdoutIsJson : Bool

/-- The five subcommands, in pipeline order. -/
inductive VStage where
  | init
  | validate
  | plan
  | apply
  | destroy
deriving DecidableEq, BEq

/-- The outcome tag of a `/validate` response: the `details.type` values,
plus `ok` for the success payload and `http400` for the
`HTTPException(400)` raised from the `json.JSONDecodeError` arm. -/
inductive VTag where
  | initialization_error
  | validation_error
  | plan_error
  | apply_error
  | destroy_error
  | ok
  | http400
deriving DecidableEq

/-- Observable outcome of a `/validate` run: response tag, the `error`
field of the response, and the invoked subcommands in order. -/
structure VOut where
  tag : VTag
  error : Option String
  trace : List VStage
deriving DecidableEq

/-- The `/validate` handler's stage sequence (lines 200-315 plus the
`json.JSONDecodeError` arm at 317-323): each failing stage short-circuits;
failures of init/validate/plan/apply run one best-effort destroy before
returning; a destroy-stage failure returns directly. -/
def runValidate (st : Stub) : VOut :=
  if !st.init.success then
    ⟨.initialization_error, st.init.error, [.init, .destroy]⟩
  else if !st.validate.success then
    ⟨.validation_error, st.validate.error, [.init, .validate, .destroy]⟩
  else if !st.plan.success then
    ⟨.plan_error, st.plan.error, [.init, .validate, .plan, .destroy]⟩
  else if !st.apply.success then
    ⟨.apply_error, st.apply.error, [.init, .validate, .plan, .apply, .destroy]⟩
  else if !st.destroy.success then
    ⟨.destroy_error, st.destroy.error, [.init, .validate, .plan, .apply, .destroy]⟩
  else if st.validStdoutIsJson then
    ⟨.ok, none, [.init, .validate, .plan, .apply, .destroy]⟩
  else
    ⟨.http400, none, [.init, .validate, .plan, .apply, .destroy, .destroy]⟩

/-- The success flags of a stub, as a function of the stage. -/
def stubFlags (st : Stub) : VStage → Bool
  | .init => st.init.success
  | .validate => st.validate.success
  | .plan => st.plan.success
  | .apply => st.apply.success
  | .destroy => st.destroy.success

/-- The stage order used by the spec's sequence Initialize→...→Destroy. -/
def vOrder : List VStage := [.init, .validate, .plan, .apply, .destroy]

/-- First failing stage in pipeline order, if any. -/
def firstFailing (f : VStage → Bool) : Option VStage :=
  vOrder.find? fun s => !(f s)

/-- The error tag the spec assigns to a failing stage. -/
def tagOfStage : VStage → VTag
  | .init => .initialization_error
  | .validate => .validation_error
  | .plan => .plan_error
  | .apply => .apply_error
  | .destroy => .destroy_error

/-- Modelled from the spec's transition and rollback rules (spec sections
4.4 and 8): on the first failing stage `s`, the stages before `s` ran and
succeeded, `s` ran and failed, later stages of the normal sequence are
skipped, and — when `s` is not Destroy — exactly one best-effort Destroy
call follows. -/
def specControl (f : VStage → Bool) : Option (VTag × List VStage) :=
  match firstFailing f with
  | none => none
  | some s =>
    some (tagOfStage s,
      (vOrder.takeWhile fun s' => f s') ++ [s] ++
        (if s == VStage.destroy then [] else [.destroy]))

/-! ## The `/execute` queue and slot (src/main.py lines 341-401)

The handler's shared state is `current_execution`, `terraform_queue`, and
the set of drain tasks spawned by `asyncio.create_task` in the `finally`
block (line 399) that have not started running yet.  The three atomic
events are: a new request reaching its `queue_lock` section (lines
355-363), the `finally` block of the current run (lines 393-399: cleanup,
then under the lock clear `current_execution`, pop the queue head and spawn
its drain task), and a spawned drain task starting to execute the handler
body.

A drain task re-enters `execute_terraform(next_file, next_vars,
credentials)` with `next_vars` the already parsed dict.  When that dict is
truthy, line 351 re-runs `json.loads` on it, which raises `TypeError`; the
`except json.JSONDecodeError` clause does not catch it, so the task dies
before touching the lock and its request is lost.  When the dict is falsy
the task proceeds: it generates a fresh execution id and either seizes the
free slot or re-appends the request to the queue tail.  Entries are tracked
by the identity of the request (`eid`); the code regenerating a fresh uuid
on re-entry does not affect which request runs. -/

/-- A request in the queue machinery: its identity and whether its parsed
variable mapping is a truthy (non-empty) dict. -/
structure Entry where
  eid : Nat
  hasVars : Bool
deriving DecidableEq

/-- The process-wide queue state plus observables: `granted` records, in
order, the requests that acquired the execution slot; `positions` records
the `(execution_id, position)` pairs reported by queued replies. -/
structure QState where
  current : Option Nat
  queue : List Entry
  pending : List Entry
  granted : List Nat
  positions : List (Nat × Nat)
deriving DecidableEq

/-- The empty initial state (module load: lines 22-24). -/
def qInit : QState := ⟨none, [], [], [], []⟩

/-- The atomic events of the `/execute` machinery. -/
inductive QEvent where
  | submit (e : Entry)
  | finish
  | drainRun
deriving DecidableEq

/-- One atomic event:
* `submit e` — lines 355-363: with the slot occupied the request is
  appended and its reply position is the queue length after the append;
  otherwise it becomes current.
* `finish` — lines 393-399: the current run's `finally`: the slot is
  cleared, and if the queue is non-empty its head is popped and a drain
  task for it is spawned (the popped entry is *not* made current here).
* `drainRun` — the oldest spawned drain task starts: a truthy variables
  dict kills it with `TypeError` before the lock; otherwise it re-enters
  the submit logic (its queued reply, if any, is discarded). -/
def qStep (s : QState) : QEvent → QState
  | .submit e =>
    match s.current with
    | some _ =>
      { s with queue := s.queue ++ [e],
               positions := s.positions ++ [(e.eid, s.queue.length + 1)] }
    | none => { s with current := some e.eid, granted := s.granted ++ [e.eid] }
  | .finish =>
    match s.current with
    | none => s
    | some _ =>
      match s.queue with
      | [] => { s with current := none }
      | h :: t => { s with current := none, queue := t, pending := s.pending ++ [h] }
  | .drainRun =>
    match s.pending with
    | [] => s
    | h :: t =>
      if h.hasVars then { s with pending := t }
      else
        match s.current with
        | some _ => { s with pending := t, queue := s.queue ++ [h] }
        | none => { s with pending := t, current := some h.eid,
                           granted := s.granted ++ [h.eid] }

/-- Run a sequence of events from the initial state. -/
def qRun (evs : List QEvent) : QState := evs.foldl qStep qInit

/-! ## The `/execute` exit paths (src/main.py lines 365-399)

For a run that acquired the slot, the inner `try` body can leave through:
a fault while materialising the workspace, a failing init, a failing plan,
or the apply result (returned whether it succeeded or not).  Every one of
these paths passes through the `finally` block, which first removes the
workspace directory and then performs the release bookkeeping.  Filesystem
operations are modelled as succeeding (`cleanup_workspace` swallows
removal errors by design, lines 179-184). -/

/-- How the inner `try` body of an `/execute` run ends. -/
inductive ExitCause where
  | workspaceFault
  | initFail
  | planFail
  | applyDone (ok : Bool)
deriving DecidableEq

/-- Observable events of one `/execute` run that acquired the slot. -/
inductive RunEv where
  | makeWorkspace
  | cmdInit
  | cmdPlan
  | cmdApply
  | cleanup
  | release
deriving DecidableEq, BEq

/-- The event trace of an `/execute` run with the given exit cause
(lines 365-399): the `finally` block always appends cleanup then release. -/
def execTrace : ExitCause → List RunEv
  | .workspaceFault => [.makeWorkspace, .cleanup, .release]
  | .initFail => [.makeWorkspace, .cmdInit, .cleanup, .release]
  | .planFail => [.makeWorkspace, .cmdInit, .cmdPlan, .cleanup, .release]
  | .applyDone _ => [.makeWorkspace, .cmdInit, .cmdPlan, .cmdApply, .cleanup, .release]

/-- Whether the workspace directory exists after replaying a trace:
`makeWorkspace` creates it, `cleanup` removes it. -/
def dirExistsAfter (tr : List RunEv) : Bool :=
  tr.foldl (fun d e => match e with
    | RunEv.makeWorkspace => true
    | RunEv.cleanup => false
    | _ => d) false

/-! ## General string lemmas used by the block-shape theorems -/

theorem str_append_empty (s : String) : s ++ ("") = s := by
  apply String.ext; simp [String.data_append]

theorem str_empty_append (s : String) : ("") ++ s = s := by
  apply String.ext; simp [String.data_append]

theorem str_append_assoc (a b c : String) : a ++ b ++ c = a ++ (b ++ c) := by
  apply String.ext; simp [String.data_append]

/-- A fold that only ever appends to its accumulator factors through the
empty accumulator. -/
theorem foldl_append_factor (f : String → List Char → String)
    (hf : ∀ b l, f b l = b ++ f ("") l) :
    ∀ (ls : List (List Char)) (b : String), ls.foldl f b = b ++ ls.foldl f ("") := by
  intro ls
  induction ls with
  | nil => intro b; simp [List.foldl, str_append_empty]
  | cons l ls ih =>
    intro b
    calc (l :: ls).foldl f b = ls.foldl f (f b l) := rfl
      _ = f b l ++ ls.foldl f ("") := ih _
      _ = (b ++ f ("") l) ++ ls.foldl f ("") := by rw [← hf]
      _ = b ++ (f ("") l ++ ls.foldl f ("")) := str_append_assoc _ _ _
      _ = b ++ ls.foldl f (f ("") l) := by rw [ih (f ("") l)]
      _ = b ++ (l :: ls).foldl f ("") := rfl

/-! ## Theorems for the claims -/

/-- C10: when the variable mapping is absent or an empty dict,
`create_terraform_workspace` writes the uploaded configuration text to
`main.tf` unchanged and writes no `terraform.tfvars` file. -/
theorem C10_no_vars_identity_no_tfvars (content : String) :
    workspaceFiles content none = ⟨content, none⟩ ∧
    workspaceFiles content (some []) = ⟨content, none⟩ :=
  ⟨rfl, rfl⟩

/-- C4: every `/execute` run that acquired the slot ends, on every exit
path of its inner `try` body, with the workspace torn down and then the
release bookkeeping, in that order; release happens exactly once, and the
workspace directory does not exist after the trace. -/
theorem C4_teardown_then_release_every_exit_path (c : ExitCause) :
    (execTrace c).count RunEv.release = 1 ∧
    (∃ pre, execTrace c = pre ++ [RunEv.cleanup, RunEv.release]) ∧
    dirExistsAfter (execTrace c) = false := by
  cases c with
  | workspaceFault =>
    exact ⟨rfl, ⟨[RunEv.makeWorkspace], rfl⟩, rfl⟩
  | initFail =>
    exact ⟨rfl, ⟨[RunEv.makeWorkspace, RunEv.cmdInit], rfl⟩, rfl⟩
  | planFail =>
    exact ⟨rfl, ⟨[RunEv.makeWorkspace, RunEv.cmdInit, RunEv.cmdPlan], rfl⟩, rfl⟩
  | applyDone ok =>
    exact ⟨rfl,
      ⟨[RunEv.makeWorkspace, RunEv.cmdInit, RunEv.cmdPlan, RunEv.cmdApply], rfl⟩, rfl⟩

/-- C1: on a configuration that declares the aws provider twice, both with
an `access_key`, merging a bundle that also supplies `access_key` replaces
every matched block with the merge computed from the first block: the
second block's declared value `A2` is dropped from the output and the first
block's value `A1` is emitted twice.  This evaluates the embedded code at
the failing input. -/
theorem C1_aws_multi_block_merge_drops_declared_field :
    (create_terraform_workspace
        ("provider \"aws\" \x7b\n  access_key = \"A1\"\n\x7d\nprovider \"aws\" \x7b\n  access_key = \"A2\"\n\x7d\n")
        (some [("aws_access_key", "B")])).1 =
      "provider \"aws\" \x7b\n  access_key = \"A1\"\n\x7d\nprovider \"aws\" \x7b\n  access_key = \"A1\"\n\x7d\n" ∧
    containsSubstrS ("access_key = \"A2\"")
      ("provider \"aws\" \x7b\n  access_key = \"A1\"\n\x7d\nprovider \"aws\" \x7b\n  access_key = \"A2\"\n\x7d\n") = true ∧
    containsSubstrS ("A2")
      ((create_terraform_workspace
        ("provider \"aws\" \x7b\n  access_key = \"A1\"\n\x7d\nprovider \"aws\" \x7b\n  access_key = \"A2\"\n\x7d\n")
        (some [("aws_access_key", "B")])).1) = false := by
  refine ⟨by decide, by decide, by decide⟩

/-- C5: the aws provider scan is the regex `provider\s+"aws"\s+{([^}]*)}`,
whose captured span stops at the first `}` rather than the matching one: on
a block with a nested sub-block the captured body is truncated (it contains
two opening braces and no closing one), and the rewritten output is
mangled.  This evaluates the embedded code at the failing input. -/
theorem C5_scan_stops_at_first_closing_brace :
    (searchAws ("provider \"aws\" \x7b\n  default_tags \x7b\n    tags = \x7b\x7d\n  \x7d\n\x7d\n").data).map
        (fun p => String.mk p.1) = some ("\n  default_tags \x7b\n    tags = \x7b") ∧
    ("\n  default_tags \x7b\n    tags = \x7b").data.count '{' = 2 ∧
    ("\n  default_tags \x7b\n    tags = \x7b").data.count '}' = 0 ∧
    (create_terraform_workspace
        ("provider \"aws\" \x7b\n  default_tags \x7b\n    tags = \x7b\x7d\n  \x7d\n\x7d\n")
        (some [("aws_region", "eu")])).1 =
      "provider \"aws\" \x7b\n  region     = \"eu\"\n  default_tags \x7b\n  tags = \x7b\n\x7d\n  \x7d\n\x7d\n" := by
  refine ⟨by decide, by decide, by decide, by decide⟩

/-- C2: requests 2 and 3 are queued while request 1 holds the slot, and the
reported positions are 1 and 2; but when request 1 finishes, the drain task
for request 2 (whose parsed variable mapping is a truthy dict) dies in
`json.loads` with a `TypeError` before acquiring the slot, so request 2 is
never granted and request 3 is left in the queue with nothing to drain it:
the granted order is `[1]`, not the submission order.  This evaluates the
embedded code at the failing schedule. -/
theorem C2_queued_request_with_vars_never_granted :
    qRun [.submit ⟨1, false⟩, .submit ⟨2, true⟩, .submit ⟨3, false⟩, .finish, .drainRun] =
      ⟨none, [⟨3, false⟩], [], [1], [(2, 1), (3, 2)]⟩ := by
  decide

/-- C3: after `[submit 1, submit 2, finish]` the state has `current = none`
while the popped entry 2 is still pending — the slot is observed free while
a popped-but-not-yet-current entry exists.  Extending the schedule, a fresh
request 3 then seizes the slot and the drain task for entry 2 re-appends it
to the queue tail: the granted order becomes `[1, 3]` with entry 2 still
queued.  This evaluates the embedded code at the failing schedule. -/
theorem C3_release_pop_not_atomic :
    ((qRun [.submit ⟨1, false⟩, .submit ⟨2, false⟩, .finish]).current = none ∧
     (qRun [.submit ⟨1, false⟩, .submit ⟨2, false⟩, .finish]).pending = [⟨2, false⟩]) ∧
    qRun [.submit ⟨1, false⟩, .submit ⟨2, false⟩, .finish, .submit ⟨3, false⟩, .drainRun] =
      ⟨some 3, [⟨2, false⟩], [], [1, 3], [(2, 1)]⟩ := by
  refine ⟨⟨by decide, by decide⟩, by decide⟩

/-- C9: the command runner's success is exactly exit code zero; `error` is
absent on success and carries stderr on a non-zero exit; a launch failure
is returned (not raised) as a failure in the same result shape, its `error`
being the exception text. -/
theorem C9_runner_result_mapping (o : ProcOutcome) :
    ((execute_terraform_command o).success = true ↔ ∃ out err, o = .launched 0 out err) ∧
    ((execute_terraform_command o).success = true → (execute_terraform_command o).error = none) ∧
    (∀ code out err, o = .launched code out err → code ≠ 0 →
      (execute_terraform_command o).success = false ∧
      (execute_terraform_command o).error = some err) ∧
    (∀ msg, o = .launchFailure msg →
      (execute_terraform_command o).success = false ∧
      (execute_terraform_command o).output = none ∧
      (execute_terraform_command o).error = some msg) := by
  cases o with
  | launched code out err =>
    refine ⟨⟨fun h => ?_, fun h => ?_⟩, fun h => ?_, fun c o' e' he hc => ?_, fun msg he => ?_⟩
    · have hc : code = 0 := by simpa [execute_terraform_command] using h
      exact ⟨out, err, by rw [hc]⟩
    · obtain ⟨o', e', he⟩ := h
      cases he
      rfl
    · have hc : code = 0 := by simpa [execute_terraform_command] using h
      simp [execute_terraform_command, hc]
    · cases he
      simp [execute_terraform_command, hc]
    · cases he
  | launchFailure msg =>
    refine ⟨⟨fun h => ?_, fun h => ?_⟩, fun h => ?_, fun c o' e' he hc => ?_, fun m he => ?_⟩
    · simp [execute_terraform_command] at h
    · obtain ⟨o', e', he⟩ := h
      cases he
    · simp [execute_terraform_command] at h
    · cases he
    · cases he
      simp [execute_terraform_command]

/-- C9 witness: the mapping at a successful run, a failed run, and a failed
launch. -/
theorem C9_runner_result_mapping_witness :
    (execute_terraform_command (.launched 0 ("done") (""))).success = true ∧
    (execute_terraform_command (.launched 1 ("") ("boom"))).error = some ("boom") ∧
    (execute_terraform_command (.launchFailure ("no such file"))).success = false :=
  ⟨(C9_runner_result_mapping _).1.2 ⟨_, _, rfl⟩,
   ((C9_runner_result_mapping _).2.2.1 1 ("") ("boom") rfl (by decide)).2,
   ((C9_runner_result_mapping _).2.2.2 ("no such file") rfl).1⟩

/-- C6 counterexample: injecting google credentials into a configuration
with no google provider declaration appends the synthesized block after the
caller-supplied body — the output starts with the caller's resource block,
so the injected block does not precede the configuration body as the claim
states. -/
theorem C6_counterexample_gcp_block_appended :
    (create_terraform_workspace ("resource \"null_resource\" \"x\" \x7b\x7d\n")
        (some [("gcp_credentials_file", "/tmp/k.json")])).1 =
      "resource \"null_resource\" \"x\" \x7b\x7d\n\nprovider \"google\" \x7b\n  credentials = file(\"/tmp/k.json\")\n\x7d\n" ∧
    isPrefixL ("resource".data)
      ((create_terraform_workspace ("resource \"null_resource\" \"x\" \x7b\x7d\n")
        (some [("gcp_credentials_file", "/tmp/k.json")])).1).data = true ∧
    isPrefixL ("provider".data)
      ((create_terraform_workspace ("resource \"null_resource\" \"x\" \x7b\x7d\n")
        (some [("gcp_credentials_file", "/tmp/k.json")])).1).data = false := by
  refine ⟨by decide, by decide, by decide⟩

/-- C7 counterexample: rewriting an existing aws block that declares
`    region = "eu-west-1"` (four-space indent) with a bundle supplying
`access_key` emits the injected `access_key` line before the original
`region` line, and the original line is re-indented rather than preserved
verbatim. -/
theorem C7_counterexample_injected_lines_first :
    (create_terraform_workspace ("provider \"aws\" \x7b\n    region = \"eu-west-1\"\n\x7d\n")
        (some [("aws_access_key", "AK")])).1 =
      "provider \"aws\" \x7b\n  access_key = \"AK\"\n  region = \"eu-west-1\"\n\x7d\n" ∧
    containsSubstrS ("    region = \"eu-west-1\"")
      ((create_terraform_workspace ("provider \"aws\" \x7b\n    region = \"eu-west-1\"\n\x7d\n")
        (some [("aws_access_key", "AK")])).1) = false ∧
    containsSubstrS ("  access_key = \"AK\"\n  region")
      ((create_terraform_workspace ("provider \"aws\" \x7b\n    region = \"eu-west-1\"\n\x7d\n")
        (some [("aws_access_key", "AK")])).1) = true := by
  refine ⟨by decide, by decide, by decide⟩

/-- C6 amended: with no existing declaration and a non-empty bundle, exactly
one block with the bundle's fields is synthesized, but only the aws block is
prepended; the google and azurerm blocks are appended after the caller's
configuration body (and the azurerm block always carries the empty
`features` sub-block, visible in `azureBlock`). -/
theorem C6_amended_block_placement :
    (∀ (content : String) (a : AwsCreds), a.nonempty = true →
      searchAws content.data = none →
      injectAws content a = buildAwsNewBlock a ++ content) ∧
    (∀ (content path : String),
      containsSubstrS ("provider \"google\"") content = false →
      injectGcp content (some path) = content ++ "\n" ++ gcpBlock path ++ "\n") ∧
    (∀ (content : String) (z : AzureCreds), z.nonempty = true →
      containsSubstrS ("provider \"azurerm\"") content = false →
      injectAzure content z = content ++ "\n" ++ azureBlock z ++ "\n") ∧
    (∀ (content path : String),
      containsSubstrS ("provider \"google\"") content = false →
      (create_terraform_workspace content (some [("gcp_credentials_file", path)])).1 =
        content ++ "\n" ++ gcpBlock path ++ "\n") := by
  refine ⟨fun content a ha hs => ?_, fun content path h => ?_,
    fun content z hz h => ?_, fun content path h => ?_⟩
  · simp [injectAws, ha, hs]
  · simp [injectGcp, h]
  · simp [injectAzure, hz, h]
  · simp [create_terraform_workspace, extractAws, extractGcp, extractAzure,
      lookupVar, removeVar, List.find?, List.filter, injectAws, injectGcp, injectAzure,
      AwsCreds.nonempty, AzureCreds.nonempty, h]

/-- C6 witness: concrete placements for the three providers and for the
whole preparation step. -/
theorem C6_amended_block_placement_witness :
    injectAws ("resource \"x\" \"y\" \x7b\x7d\n") ⟨some ("AK"), none, none⟩ =
      buildAwsNewBlock ⟨some ("AK"), none, none⟩ ++ "resource \"x\" \"y\" \x7b\x7d\n" ∧
    injectGcp ("resource \"x\" \"y\" \x7b\x7d\n") (some ("p")) =
      "resource \"x\" \"y\" \x7b\x7d\n" ++ "\n" ++ gcpBlock ("p") ++ "\n" ∧
    injectAzure ("resource \"x\" \"y\" \x7b\x7d\n") ⟨some ("CID"), none, none, none⟩ =
      "resource \"x\" \"y\" \x7b\x7d\n" ++ "\n" ++ azureBlock ⟨some ("CID"), none, none, none⟩ ++ "\n" ∧
    (create_terraform_workspace ("resource \"x\" \"y\" \x7b\x7d\n")
        (some [("gcp_credentials_file", "p")])).1 =
      "resource \"x\" \"y\" \x7b\x7d\n" ++ "\n" ++ gcpBlock ("p") ++ "\n" :=
  ⟨C6_amended_block_placement.1 _ _ (by decide) (by decide),
   C6_amended_block_placement.2.1 _ _ (by decide),
   C6_amended_block_placement.2.2.1 _ _ (by decide) (by decide),
   C6_amended_block_placement.2.2.2 _ _ (by decide)⟩

/-- One step of the original-line re-emission only appends to its
accumulator. -/
theorem emit_step_factor (b : String) (l : List Char) :
    (if (pyStrip l).isEmpty then b else b ++ "  " ++ String.mk (pyStrip l) ++ "\n") =
      b ++ (if (pyStrip l).isEmpty then ("")
            else ("") ++ "  " ++ String.mk (pyStrip l) ++ "\n") := by
  split_ifs with hl
  · exact (str_append_empty b).symm
  · simp [str_append_assoc, str_empty_append]

/-- C7 amended: the rewritten aws block is the header, then the newly
injected credential lines (only fields whose declaration name is not
already present — caller-declared values are never overwritten), then the
original lines re-emitted (each stripped and re-indented with two spaces,
not verbatim), then the closing brace: injected lines precede the original
lines. -/
theorem C7_amended_merged_block_shape (inner : String) (a : AwsCreds) :
    buildAwsMergedBlock inner a =
      "provider \"aws\" \x7b\n" ++ awsInjectedFields (parseFieldKeysS inner) a ++
        emitStrippedLines inner ++ "\x7d\n" ∧
    (∀ v, a.access_key = some v → (parseFieldKeysS inner).contains ("access_key") = true →
      awsInjectedFields (parseFieldKeysS inner) a =
        awsInjectedFields (parseFieldKeysS inner) ⟨none, a.secret_key, a.region⟩) ∧
    (∀ v, a.secret_key = some v → (parseFieldKeysS inner).contains ("secret_key") = true →
      awsInjectedFields (parseFieldKeysS inner) a =
        awsInjectedFields (parseFieldKeysS inner) ⟨a.access_key, none, a.region⟩) ∧
    (∀ v, a.region = some v → (parseFieldKeysS inner).contains ("region") = true →
      awsInjectedFields (parseFieldKeysS inner) a =
        awsInjectedFields (parseFieldKeysS inner) ⟨a.access_key, a.secret_key, none⟩) := by
  rcases a with ⟨ak, sk, rg⟩
  refine ⟨?_, fun v hv hc => ?_, fun v hv hc => ?_, fun v hv hc => ?_⟩
  · simp only [buildAwsMergedBlock, awsInjectedFields, emitStrippedLines]
    rw [foldl_append_factor
      (fun (b : String) (line : List Char) =>
        if (pyStrip line).isEmpty then b else b ++ "  " ++ String.mk (pyStrip line) ++ "\n")
      emit_step_factor]
    generalize List.foldl
      (fun (b : String) (line : List Char) =>
        if (pyStrip line).isEmpty then b else b ++ "  " ++ String.mk (pyStrip line) ++ "\n")
      ("") (splitOnChar '\n' (pyStrip inner.data)) = E
    have hs1 : ("provider \"aws\" \x7b\n  access_key = \"" : String) =
        "provider \"aws\" \x7b\n" ++ "  access_key = \"" := rfl
    have hs2 : ("provider \"aws\" \x7b\n  secret_key = \"" : String) =
        "provider \"aws\" \x7b\n" ++ "  secret_key = \"" := rfl
    have hs3 : ("provider \"aws\" \x7b\n  region     = \"" : String) =
        "provider \"aws\" \x7b\n" ++ "  region     = \"" := rfl
    cases ak <;> cases sk <;> cases rg <;>
      split_ifs <;>
      simp [-String.reduceAppend, hs1, hs2, hs3,
        str_append_assoc, str_append_empty, str_empty_append]
  · cases hv
    have hm : ("access_key" : String) ∈ parseFieldKeysS inner := by simpa using hc
    simp [awsInjectedFields, hm, str_empty_append, str_append_assoc]
  · cases hv
    have hm : ("secret_key" : String) ∈ parseFieldKeysS inner := by simpa using hc
    simp [awsInjectedFields, hm, str_empty_append, str_append_assoc, str_append_empty]
  · cases hv
    have hm : ("region" : String) ∈ parseFieldKeysS inner := by simpa using hc
    simp [awsInjectedFields, hm, str_empty_append, str_append_assoc, str_append_empty]

/-- C7 witness: the decomposition and the no-overwrite clause at a body
that already declares `access_key`, with a bundle supplying `access_key`
and `region`. -/
theorem C7_amended_merged_block_shape_witness :
    buildAwsMergedBlock ("\n  access_key = \"A1\"\n") ⟨some ("B"), none, some ("R")⟩ =
      "provider \"aws\" \x7b\n" ++
        awsInjectedFields (parseFieldKeysS ("\n  access_key = \"A1\"\n"))
          ⟨some ("B"), none, some ("R")⟩ ++
        emitStrippedLines ("\n  access_key = \"A1\"\n") ++ "\x7d\n" ∧
    awsInjectedFields (parseFieldKeysS ("\n  access_key = \"A1\"\n"))
        ⟨some ("B"), none, some ("R")⟩ =
      awsInjectedFields (parseFieldKeysS ("\n  access_key = \"A1\"\n"))
        ⟨none, none, some ("R")⟩ :=
  ⟨(C7_amended_merged_block_shape ("\n  access_key = \"A1\"\n") ⟨some ("B"), none, some ("R")⟩).1,
   (C7_amended_merged_block_shape ("\n  access_key = \"A1\"\n")
      ⟨some ("B"), none, some ("R")⟩).2.1 ("B") rfl (by decide)⟩

/-- C8: in validate-mode, whenever some stage fails, the response tag and
the invoked-subcommand trace of the embedded handler coincide with the
spec-side control: stages before the first failing stage ran, the first
failing stage halts the pipeline with its tag, later stages are skipped,
and exactly one best-effort destroy follows a failure of any stage from
initialize through apply (its own outcome not affecting the tag); a failing
destroy stage triggers no further destroy. -/
theorem C8_first_failure_halts_with_tag_and_one_destroy (st : Stub)
    (h : (firstFailing (stubFlags st)).isSome = true) :
    specControl (stubFlags st) = some ((runValidate st).tag, (runValidate st).trace) := by
  rcases st with ⟨⟨i, io, ie⟩, ⟨v, vo, ve⟩, ⟨p, po, pe⟩, ⟨a, ao, ae⟩, ⟨d, dvo, de⟩, j⟩
  cases i <;> cases v <;> cases p <;> cases a <;> cases d <;>
    first
      | rfl
      | (exfalso; simp [firstFailing, stubFlags, vOrder] at h)

/-- C8 witness: a stub whose apply stage exits non-zero yields the
`apply_error` tag and a trace with exactly one destroy after apply. -/
theorem C8_first_failure_halts_witness :
    specControl (stubFlags ⟨⟨true, some ("ok"), none⟩, ⟨true, some ("\x7b\x7d"), none⟩,
        ⟨true, some ("plan"), none⟩, ⟨false, some (""), some ("boom")⟩,
        ⟨true, some (""), none⟩, true⟩) =
      some (VTag.apply_error,
        [VStage.init, VStage.validate, VStage.plan, VStage.apply, VStage.destroy]) :=
  (C8_first_failure_halts_with_tag_and_one_destroy
    ⟨⟨true, some ("ok"), none⟩, ⟨true, some ("\x7b\x7d"), none⟩,
     ⟨true, some ("plan"), none⟩, ⟨false, some (""), some ("boom")⟩,
     ⟨true, some (""), none⟩, true⟩ (by decide)).trans (by decide)

end TfEngine
